import Mathlib

/-!
Verification development for the sqlstudio backend (src/backend/main.py),
a FastAPI service with three endpoints: /test-connection, /execute-sql and
/download.  The Python code is shallowly embedded below: the database driver
(pyodbc) and dataframe library (pandas) are modelled by an oracle `Database`
supplying the outcome of `pyodbc.connect` and of running a query, while every
line of control flow of main.py (connection handling, error wrapping, type
conversion, serialization and response construction) is translated directly.
Each endpoint also returns a trace of driver-level events (connection attempt,
query execution, connection close) so that resource and ordering properties
can be stated.
-/

/-- A dataframe cell as produced by pd.read_sql: a missing value (NaN/None),
an integer, or a string. -/
inductive Cell where
  | nan
  | int (n : Int)
  | str (s : String)
deriving DecidableEq, Repr

/-- A raw value as delivered by the ODBC driver before output conversion. -/
inductive RawValue where
  | null
  | int (n : Int)
  | str (s : String)
deriving DecidableEq, Repr

/-- A raw result set from the driver: column (name, ODBC sql type) pairs and
rows of raw values. -/
structure RawResult where
  cols : List (String × Int)
  rows : List (List RawValue)
deriving DecidableEq, Repr

/-- A pandas DataFrame as used by main.py: column names and rows of cells. -/
structure DataFrame where
  cols : List String
  rows : List (List Cell)
deriving DecidableEq, Repr

/-- JSON-ish values in responses.  `nanLit` stands for the out-of-spec NaN
token a naive serialization of a dataframe would emit; the code is supposed
never to produce it. -/
inductive Json where
  | null
  | nanLit
  | int (n : Int)
  | str (s : String)
  | arr (xs : List Json)
  | obj (fields : List (String × Json))

/-- An HTTPException: status code and detail string. -/
structure HttpError where
  status : Nat
  detail : String
deriving DecidableEq, Repr

/-- Driver-level events, in the order they happen while handling a request. -/
inductive Event where
  | connectAttempt (connStr : String)
  | queryExecuted (q : String)
  | connClosed
deriving DecidableEq, Repr

/-- The request body (pydantic model DynamicRequest of main.py). -/
structure DynamicRequest where
  SERVER : String
  DATABASE : String
  USERNAME : String
  PASSWORD : String
  QUERY : String := ""
  DELIMITER : String := ","
  FORMAT : String := "csv"
deriving DecidableEq, Repr

/-- get_conn_str of main.py: the ODBC connection string built from the
request fields. -/
def get_conn_str (req : DynamicRequest) : String :=
  "DRIVER=\x7bODBC Driver 17 for SQL Server\x7d;" ++
  "SERVER=" ++ req.SERVER ++ ";" ++
  "DATABASE=" ++ req.DATABASE ++ ";" ++
  "UID=" ++ req.USERNAME ++ ";" ++
  "PWD=" ++ req.PASSWORD ++ ";" ++
  "Connection Timeout=10;"

/-- handle_special_types of main.py: `str(value) if value is not None
else ""`.  The raw driver value handed to an output converter is modelled as
an optional string (None for SQL NULL). -/
def handle_special_types (value : Option String) : String :=
  match value with
  | some v => v
  | none => ""

/-- A pyodbc connection, reduced to what main.py uses of it: the table of
registered output converters, keyed by ODBC sql type. -/
structure Connection where
  converters : List (Int × (Option String → String))

/-- Linear lookup of an output converter by sql type. -/
def lookupConverter (cs : List (Int × (Option String → String))) (t : Int) :
    Option (Option String → String) :=
  match cs with
  | [] => none
  | (t0, f) :: rest => if t = t0 then some f else lookupConverter rest t

/-- The driver/database oracle: outcome of pyodbc.connect on a connection
string, and the raw result (or driver error string) of running a query. -/
structure Database where
  connect : String → Except String Unit
  runQuery : String → Except String RawResult

/-- The raw value as the driver would hand it to an output converter. -/
def rawToOptionString : RawValue → Option String
  | RawValue.null => none
  | RawValue.int n => some (toString n)
  | RawValue.str s => some s

/-- Default conversion of a raw value into a dataframe cell (SQL NULL
becomes a missing value, i.e. NaN/None in pandas). -/
def defaultCell : RawValue → Cell
  | RawValue.null => Cell.nan
  | RawValue.int n => Cell.int n
  | RawValue.str s => Cell.str s

/-- Conversion of one raw value of a column of sql type `t`: a registered
output converter takes precedence over the default conversion. -/
def readCell (cs : List (Int × (Option String → String))) (t : Int)
    (v : RawValue) : Cell :=
  match lookupConverter cs t with
  | some f => Cell.str (f (rawToOptionString v))
  | none => defaultCell v

/-- get_db_connection of main.py: connect, register the output converters
for geometry (-151) and xml (-152), or turn any failure into an
HTTPException 400 whose detail starts with "Connection Error: ". -/
def get_db_connection (db : Database) (req : DynamicRequest) :
    Except HttpError Connection :=
  match db.connect (get_conn_str req) with
  | Except.error e =>
      Except.error { status := 400, detail := "Connection Error: " ++ e }
  | Except.ok _ =>
      Except.ok { converters :=
        [(-151, handle_special_types), (-152, handle_special_types)] }

/-- pd.read_sql(query, conn): run the query through the driver and build a
dataframe, applying the connection's output converters column-wise. -/
def read_sql (db : Database) (conn : Connection) (q : String) :
    Except String DataFrame :=
  match db.runQuery q with
  | Except.error e => Except.error e
  | Except.ok raw =>
      Except.ok
        { cols := raw.cols.map (fun c => c.1),
          rows := raw.rows.map (fun r =>
            (raw.cols.zip r).map (fun p => readCell conn.converters p.1.2 p.2)) }

/-- One cell after `df.replace(\x7bnp.nan: None\x7d)` followed by
`to_dict`: a missing value becomes JSON null. -/
def cellAfterReplace : Cell → Json
  | Cell.nan => Json.null
  | Cell.int n => Json.int n
  | Cell.str s => Json.str s

/-- `df.replace(\x7bnp.nan: None\x7d).to_dict(orient="records")` of
main.py: the rows as a JSON array of records. -/
def to_records_nan_null (df : DataFrame) : Json :=
  Json.arr (df.rows.map (fun r => Json.obj (df.cols.zip (r.map cellAfterReplace))))

/-- Python str.lower as used on the query in /execute-sql (ASCII model):
lowercase every character. -/
def pyLower (s : String) : String := String.mk (s.data.map Char.toLower)

/-- A cell rendered as a CSV field value (pandas default na_rep is the
empty string). -/
def cellToField : Cell → String
  | Cell.nan => ""
  | Cell.int n => toString n
  | Cell.str s => s

/-- Whether a CSV field needs quoting under QUOTE_MINIMAL with separator
`c`: it contains the separator, a double quote, or a line break. -/
def needsQuoting (c : Char) (field : String) : Bool :=
  field.data.any (fun ch => ch = c || ch = Char.ofNat 34 ||
    ch = Char.ofNat 10 || ch = Char.ofNat 13)

/-- Double every double-quote character of a field. -/
def escapeQuotes (field : String) : String :=
  String.mk (field.data.flatMap (fun ch =>
    if ch = Char.ofNat 34 then [Char.ofNat 34, Char.ofNat 34] else [ch]))

/-- Join strings with a separator. -/
def joinSep (sep : String) : List String → String
  | [] => ""
  | [x] => x
  | x :: y :: xs => x ++ sep ++ joinSep sep (y :: xs)

/-- Render one CSV field under QUOTE_MINIMAL with separator `c`. -/
def csvField (c : Char) (field : String) : String :=
  if needsQuoting c field then "\"" ++ escapeQuotes field ++ "\"" else field

/-- Render a dataframe as delimited text with separator `c`: header line
then one line per row, no index column, trailing newline. -/
def csvRender (c : Char) (df : DataFrame) : String :=
  joinSep "\n"
    ((joinSep (String.singleton c) (df.cols.map (csvField c))) ::
      df.rows.map (fun r =>
        joinSep (String.singleton c)
          (r.map (fun cell => csvField c (cellToField cell))))) ++ "\n"

/-- df.to_csv(index=False, sep=sep): the csv module (and hence pandas)
rejects any separator that is not exactly one character. -/
def to_csv (df : DataFrame) (sep : String) : Except String String :=
  if sep.length = 1 then Except.ok (csvRender sep.front df)
  else Except.error "\"delimiter\" must be a 1-character string"

/-- The body of a streamed file response: either delimited text or an xlsx
workbook, the latter given as its sheets (name, dataframe written without
index). -/
inductive FileContent where
  | text (s : String)
  | excel (sheets : List (String × DataFrame))
deriving DecidableEq, Repr

/-- A StreamingResponse: content, media type, Content-Disposition header. -/
structure StreamResp where
  content : FileContent
  mediaType : String
  contentDisposition : String
deriving DecidableEq, Repr

/-- Endpoint /test-connection of main.py: open a connection, close it,
report success.  Returns the FastAPI result and the driver event trace. -/
def test_connection (db : Database) (req : DynamicRequest) :
    Except HttpError Json × List Event :=
  match get_db_connection db req with
  | Except.error e => (Except.error e, [Event.connectAttempt (get_conn_str req)])
  | Except.ok _conn =>
      (Except.ok (Json.obj
        [("status", Json.str "success"), ("message", Json.str "connected")]),
       [Event.connectAttempt (get_conn_str req), Event.connClosed])

/-- Endpoint /execute-sql of main.py: open a connection, run the lowercased
query, replace NaN by null and wrap the records in a "data" key; a query
failure becomes HTTPException 500 with the bare error string.  The
connection is not closed on any path of this endpoint. -/
def execute_sql (db : Database) (req : DynamicRequest) :
    Except HttpError Json × List Event :=
  match get_db_connection db req with
  | Except.error e => (Except.error e, [Event.connectAttempt (get_conn_str req)])
  | Except.ok conn =>
      match read_sql db conn (pyLower req.QUERY) with
      | Except.error e =>
          (Except.error { status := 500, detail := e },
           [Event.connectAttempt (get_conn_str req),
            Event.queryExecuted (pyLower req.QUERY)])
      | Except.ok df =>
          (Except.ok (Json.obj [("data", to_records_nan_null df)]),
           [Event.connectAttempt (get_conn_str req),
            Event.queryExecuted (pyLower req.QUERY)])

/-- Endpoint /download of main.py: open a connection, run the raw query,
close the connection, then serialize as xlsx (FORMAT = "excel") or as
delimited text with the requested delimiter.  The except handler runs
`if conn: conn.close()` and then raises HTTPException 400
"Export Error: ...".  On a query failure the connection is still open, so
that close succeeds and the 400 is raised.  On a failure after the first
close (a bad delimiter rejected by to_csv), the handler's second close hits
an already-closed pyodbc connection and itself raises ProgrammingError
("Attempt to use a closed connection."), so the HTTPException is never
raised and the framework answers 500 "Internal Server Error". -/
def download_file (db : Database) (req : DynamicRequest) :
    Except HttpError StreamResp × List Event :=
  match get_db_connection db req with
  | Except.error e => (Except.error e, [Event.connectAttempt (get_conn_str req)])
  | Except.ok conn =>
      match read_sql db conn req.QUERY with
      | Except.error e =>
          (Except.error { status := 400, detail := "Export Error: " ++ e },
           [Event.connectAttempt (get_conn_str req),
            Event.queryExecuted req.QUERY, Event.connClosed])
      | Except.ok df =>
          if req.FORMAT = "excel" then
            (Except.ok
              { content := FileContent.excel [("SQL_Results", df)],
                mediaType :=
                  "application/vnd.openxmlformats-officedocument.spreadsheetml.sheet",
                contentDisposition := "attachment; filename=query_export.xlsx" },
             [Event.connectAttempt (get_conn_str req),
              Event.queryExecuted req.QUERY, Event.connClosed])
          else
            match to_csv df req.DELIMITER with
            | Except.error _e =>
                (Except.error
                  { status := 500, detail := "Internal Server Error" },
                 [Event.connectAttempt (get_conn_str req),
                  Event.queryExecuted req.QUERY, Event.connClosed])
            | Except.ok text =>
                (Except.ok
                  { content := FileContent.text text,
                    mediaType :=
                      if req.FORMAT = "csv" then "text/csv" else "text/plain",
                    contentDisposition :=
                      "attachment; filename=query_export." ++ req.FORMAT },
                 [Event.connectAttempt (get_conn_str req),
                  Event.queryExecuted req.QUERY, Event.connClosed])

/-- A request to the service: one of the three operations with its body. -/
inductive RequestMsg where
  | testConnection (req : DynamicRequest)
  | executeSql (req : DynamicRequest)
  | download (req : DynamicRequest)

/-- A response from the service. -/
inductive ResponseMsg where
  | jsonResp (r : Except HttpError Json)
  | fileResp (r : Except HttpError StreamResp)

/-- Dispatch one request to its endpoint.  The app object holds no mutable
request-visible state (main.py only configures CORS at startup), so handling
is a pure function of the database and the request. -/
def handle (db : Database) : RequestMsg → ResponseMsg
  | RequestMsg.testConnection req => ResponseMsg.jsonResp (test_connection db req).1
  | RequestMsg.executeSql req => ResponseMsg.jsonResp (execute_sql db req).1
  | RequestMsg.download req => ResponseMsg.fileResp (download_file db req).1

/-- Serve a sequence of requests: each is a single-shot request/response
cycle. -/
def serve (db : Database) (reqs : List RequestMsg) : List ResponseMsg :=
  reqs.map (handle db)

/-! ## Concrete fixtures used in witnesses and counterexamples -/

/-- A small raw result: an int column (ODBC type 4) and a varchar column
(ODBC type 12), one full row and one all-NULL row. -/
def sampleRawResult : RawResult :=
  { cols := [("a", 4), ("b", 12)],
    rows := [[RawValue.int 1, RawValue.str "x"],
             [RawValue.null, RawValue.null]] }

/-- A database on which connecting and every query succeed. -/
def sampleDb : Database :=
  { connect := fun _ => Except.ok (),
    runQuery := fun _ => Except.ok sampleRawResult }

/-- A database on which connecting always fails. -/
def failConnectDb : Database :=
  { connect := fun _ => Except.error "boom",
    runQuery := fun _ => Except.ok sampleRawResult }

/-- A database on which connecting succeeds but every query fails. -/
def failQueryDb : Database :=
  { connect := fun _ => Except.ok (),
    runQuery := fun _ => Except.error "bad sql" }

/-- A request with an uppercase query and default csv format. -/
def sampleReq : DynamicRequest :=
  { SERVER := "s", DATABASE := "d", USERNAME := "u", PASSWORD := "p",
    QUERY := "SELECT 1", DELIMITER := ",", FORMAT := "csv" }

/-- The connection get_db_connection builds on success: converters for
geometry (-151) and xml (-152) registered. -/
def registeredConn : Connection :=
  { converters := [(-151, handle_special_types), (-152, handle_special_types)] }

/-- The dataframe read from sampleRawResult (no converter applies to ODBC
types 4 and 12, so NULLs become missing values). -/
def sampleDf : DataFrame :=
  { cols := ["a", "b"],
    rows := [[Cell.int 1, Cell.str "x"], [Cell.nan, Cell.nan]] }

/-- sampleReq with a two-character delimiter and txt format. -/
def badDelimReq : DynamicRequest :=
  { sampleReq with DELIMITER := "||", FORMAT := "txt" }

/-- sampleReq with a one-character non-comma delimiter and txt format. -/
def semiReq : DynamicRequest :=
  { sampleReq with DELIMITER := ";", FORMAT := "txt" }

/-- sampleReq asking for an excel export. -/
def excelReq : DynamicRequest :=
  { sampleReq with FORMAT := "excel" }

/-! ## Claims -/

/-- C1 (counterexample): the claim that both query endpoints pass the raw,
unmodified QUERY text to the driver is false: /execute-sql lowercases the
query, so on QUERY = "SELECT 1" the driver receives "select 1" and never
sees "SELECT 1". -/
theorem c1_raw_query_counterexample :
    Event.queryExecuted sampleReq.QUERY ∉ (execute_sql sampleDb sampleReq).2 ∧
    Event.queryExecuted "select 1" ∈ (execute_sql sampleDb sampleReq).2 ∧
    sampleReq.QUERY = "SELECT 1" := by
  decide

/-- C1 (amended): every query string the driver executes on behalf of
/download is exactly the request's QUERY field, while every query string the
driver executes on behalf of /execute-sql is the request's QUERY field
lowercased (str.lower). -/
theorem c1_queries_passed_to_driver (db : Database) (req : DynamicRequest)
    (q : String) :
    (Event.queryExecuted q ∈ (execute_sql db req).2 → q = pyLower req.QUERY) ∧
    (Event.queryExecuted q ∈ (download_file db req).2 → q = req.QUERY) := by
  constructor
  · intro h
    cases hc : get_db_connection db req with
    | error e => simp [execute_sql, hc] at h
    | ok conn =>
        cases hq : read_sql db conn (pyLower req.QUERY) with
        | error e => simpa [execute_sql, hc, hq] using h
        | ok df => simpa [execute_sql, hc, hq] using h
  · intro h
    cases hc : get_db_connection db req with
    | error e => simp [download_file, hc] at h
    | ok conn =>
        cases hq : read_sql db conn req.QUERY with
        | error e => simpa [download_file, hc, hq] using h
        | ok df =>
            by_cases hf : req.FORMAT = "excel"
            · simpa [download_file, hc, hq, hf] using h
            · cases ht : to_csv df req.DELIMITER with
              | error e => simpa [download_file, hc, hq, hf, ht] using h
              | ok text => simpa [download_file, hc, hq, hf, ht] using h

/-- C1 (witness): at a concrete successful request with QUERY "SELECT 1",
the executed-query events identify the lowercased and the raw query on the
two endpoints. -/
theorem c1_queries_passed_to_driver_witness :
    "select 1" = pyLower sampleReq.QUERY ∧ "SELECT 1" = sampleReq.QUERY :=
  ⟨(c1_queries_passed_to_driver sampleDb sampleReq "select 1").1 (by decide),
   (c1_queries_passed_to_driver sampleDb sampleReq "SELECT 1").2 (by decide)⟩

/-- C2 (code bug evidence): /execute-sql never closes the database
connection it opens: no connection-close event appears in its trace on any
path, success or failure, contradicting the stated invariant that every
endpoint closes its connection within the request.  (/test-connection and
/download do close theirs.) -/
theorem c2_execute_sql_never_closes (db : Database) (req : DynamicRequest) :
    Event.connClosed ∉ (execute_sql db req).2 ∧
    (db.connect (get_conn_str req) = Except.ok () →
      Event.connClosed ∈ (test_connection db req).2 ∧
      Event.connClosed ∈ (download_file db req).2) := by
  refine ⟨?_, ?_⟩
  · cases hc : get_db_connection db req with
    | error e => simp [execute_sql, hc]
    | ok conn =>
        cases hq : read_sql db conn (pyLower req.QUERY) with
        | error e => simp [execute_sql, hc, hq]
        | ok df => simp [execute_sql, hc, hq]
  · intro hok
    have hc : get_db_connection db req =
        Except.ok { converters :=
          [(-151, handle_special_types), (-152, handle_special_types)] } := by
      simp [get_db_connection, hok]
    refine ⟨by simp [test_connection, hc], ?_⟩
    cases hq : read_sql db
        { converters :=
          [(-151, handle_special_types), (-152, handle_special_types)] }
        req.QUERY with
    | error e => simp [download_file, hc, hq]
    | ok df =>
        by_cases hf : req.FORMAT = "excel"
        · simp [download_file, hc, hq, hf]
        · cases ht : to_csv df req.DELIMITER with
          | error e => simp [download_file, hc, hq, hf, ht]
          | ok text => simp [download_file, hc, hq, hf, ht]

/-- C2 (witness): on a concrete successful request, /execute-sql's trace
has no close event while /download's does. -/
theorem c2_execute_sql_never_closes_witness :
    Event.connClosed ∉ (execute_sql sampleDb sampleReq).2 ∧
    Event.connClosed ∈ (download_file sampleDb sampleReq).2 :=
  ⟨(c2_execute_sql_never_closes sampleDb sampleReq).1,
   ((c2_execute_sql_never_closes sampleDb sampleReq).2 rfl).2⟩

/-- C3 (confirmed): when the query succeeds, /execute-sql returns a JSON
object with the single key "data" holding the rows as records, where a
missing value (NaN) is rendered as JSON null, which is neither the NaN token
nor any string. -/
theorem c3_execute_sql_nan_as_null (db : Database) (req : DynamicRequest)
    (conn : Connection) (df : DataFrame)
    (hc : get_db_connection db req = Except.ok conn)
    (hq : read_sql db conn (pyLower req.QUERY) = Except.ok df) :
    (execute_sql db req).1 =
      Except.ok (Json.obj [("data",
        Json.arr (df.rows.map (fun r =>
          Json.obj (df.cols.zip (r.map cellAfterReplace)))))]) ∧
    cellAfterReplace Cell.nan = Json.null ∧
    cellAfterReplace Cell.nan ≠ Json.nanLit ∧
    ∀ s : String, cellAfterReplace Cell.nan ≠ Json.str s := by
  refine ⟨?_, rfl, by simp [cellAfterReplace], by simp [cellAfterReplace]⟩
  simp [execute_sql, hc, hq, to_records_nan_null]

/-- C3 (witness): on the sample request the NULL row comes back as a record
of JSON nulls under the "data" key. -/
theorem c3_execute_sql_nan_as_null_witness :
    (execute_sql sampleDb sampleReq).1 =
      Except.ok (Json.obj [("data",
        Json.arr (sampleDf.rows.map (fun r =>
          Json.obj (sampleDf.cols.zip (r.map cellAfterReplace)))))]) ∧
    cellAfterReplace Cell.nan = Json.null ∧
    cellAfterReplace Cell.nan ≠ Json.nanLit ∧
    ∀ s : String, cellAfterReplace Cell.nan ≠ Json.str s :=
  c3_execute_sql_nan_as_null sampleDb sampleReq registeredConn sampleDf rfl rfl

/-- C4 (counterexample): with the two-character delimiter "||" the export
produces no text at all, let alone text separated by "||": pandas/csv
reject any delimiter that is not exactly one character, the except
handler's second close on the already-closed connection raises, and the
request ends as an unhandled 500 Internal Server Error, so the claim's
"any delimiter string the caller supplies" is false. -/
theorem c4_any_delimiter_counterexample :
    badDelimReq.DELIMITER = "||" ∧ badDelimReq.FORMAT = "txt" ∧
    (download_file sampleDb badDelimReq).1 =
      Except.error { status := 500, detail := "Internal Server Error" } ∧
    ∀ resp : StreamResp,
      (download_file sampleDb badDelimReq).1 ≠ Except.ok resp := by
  refine ⟨rfl, rfl, rfl, ?_⟩
  intro resp h
  have h0 : (download_file sampleDb badDelimReq).1 =
      Except.error { status := 500, detail := "Internal Server Error" } := rfl
  rw [h0] at h
  simp at h

/-- C4 (amended): for every /download request whose FORMAT is not "excel"
and whose DELIMITER is a single character, the exported text is the result
set rendered with that character as the column separator and no index
column; a DELIMITER that is not exactly one character makes the request
fail with an unhandled 500 Internal Server Error instead (the handler's
second close of the already-closed connection raises before the 400
"Export Error" can be produced). -/
theorem c4_delimiter_respected (db : Database) (req : DynamicRequest)
    (conn : Connection) (df : DataFrame)
    (hc : get_db_connection db req = Except.ok conn)
    (hq : read_sql db conn req.QUERY = Except.ok df)
    (hf : req.FORMAT ≠ "excel") :
    (req.DELIMITER.length = 1 →
      (download_file db req).1 = Except.ok
        { content := FileContent.text (csvRender req.DELIMITER.front df),
          mediaType := if req.FORMAT = "csv" then "text/csv" else "text/plain",
          contentDisposition := "attachment; filename=query_export." ++ req.FORMAT }) ∧
    (req.DELIMITER.length ≠ 1 →
      (download_file db req).1 =
        Except.error { status := 500, detail := "Internal Server Error" }) := by
  constructor
  · intro hlen
    simp [download_file, hc, hq, hf, to_csv, hlen]
  · intro hlen
    simp [download_file, hc, hq, hf, to_csv, hlen]

/-- C4 (witness): with delimiter ";" and format "txt" the sample result set
is exported as semicolon-separated text. -/
theorem c4_delimiter_respected_witness :
    (download_file sampleDb semiReq).1 = Except.ok
      { content := FileContent.text "a;b\n1;x\n;\n",
        mediaType := "text/plain",
        contentDisposition := "attachment; filename=query_export.txt" } := by
  have h := (c4_delimiter_respected sampleDb semiReq registeredConn sampleDf
    rfl rfl (by decide)).1 rfl
  simpa using h

/-- C5 (confirmed): on every endpoint, a connection failure yields a 400
whose detail starts with "Connection Error: " and no query is ever
executed; moreover every trace begins with the connection attempt, so
connection establishment strictly precedes any query execution. -/
theorem c5_connection_error_first (db : Database) (req : DynamicRequest)
    (e : String) (h : db.connect (get_conn_str req) = Except.error e) :
    (test_connection db req).1 =
      Except.error { status := 400, detail := "Connection Error: " ++ e } ∧
    (execute_sql db req).1 =
      Except.error { status := 400, detail := "Connection Error: " ++ e } ∧
    (download_file db req).1 =
      Except.error { status := 400, detail := "Connection Error: " ++ e } ∧
    (∀ q, Event.queryExecuted q ∉ (test_connection db req).2) ∧
    (∀ q, Event.queryExecuted q ∉ (execute_sql db req).2) ∧
    (∀ q, Event.queryExecuted q ∉ (download_file db req).2) ∧
    (test_connection db req).2.head? =
      some (Event.connectAttempt (get_conn_str req)) ∧
    (execute_sql db req).2.head? =
      some (Event.connectAttempt (get_conn_str req)) ∧
    (download_file db req).2.head? =
      some (Event.connectAttempt (get_conn_str req)) := by
  have hc : get_db_connection db req =
      Except.error { status := 400, detail := "Connection Error: " ++ e } := by
    simp [get_db_connection, h]
  refine ⟨?_, ?_, ?_, ?_, ?_, ?_, ?_, ?_, ?_⟩ <;>
    simp [test_connection, execute_sql, download_file, hc]

/-- C5 (witness): on a database whose connect fails with "boom", all three
endpoints answer 400 "Connection Error: boom" and no query runs. -/
theorem c5_connection_error_first_witness :
    (test_connection failConnectDb sampleReq).1 =
      Except.error { status := 400, detail := "Connection Error: boom" } ∧
    (execute_sql failConnectDb sampleReq).1 =
      Except.error { status := 400, detail := "Connection Error: boom" } ∧
    (download_file failConnectDb sampleReq).1 =
      Except.error { status := 400, detail := "Connection Error: boom" } ∧
    Event.queryExecuted "select 1" ∉ (execute_sql failConnectDb sampleReq).2 ∧
    Event.queryExecuted "SELECT 1" ∉ (download_file failConnectDb sampleReq).2 :=
  ⟨(c5_connection_error_first failConnectDb sampleReq "boom" rfl).1,
   (c5_connection_error_first failConnectDb sampleReq "boom" rfl).2.1,
   (c5_connection_error_first failConnectDb sampleReq "boom" rfl).2.2.1,
   (c5_connection_error_first failConnectDb sampleReq "boom" rfl).2.2.2.2.1
     "select 1",
   (c5_connection_error_first failConnectDb sampleReq "boom" rfl).2.2.2.2.2.1
     "SELECT 1"⟩

/-- C6 (confirmed): a /download request with FORMAT "excel" whose query
succeeds is answered with a streamed xlsx workbook holding one sheet named
"SQL_Results" written without an index column, with the xlsx media type and
an attachment filename ending in ".xlsx". -/
theorem c6_excel_export (db : Database) (req : DynamicRequest)
    (conn : Connection) (df : DataFrame)
    (hc : get_db_connection db req = Except.ok conn)
    (hq : read_sql db conn req.QUERY = Except.ok df)
    (hf : req.FORMAT = "excel") :
    (download_file db req).1 = Except.ok
      { content := FileContent.excel [("SQL_Results", df)],
        mediaType :=
          "application/vnd.openxmlformats-officedocument.spreadsheetml.sheet",
        contentDisposition := "attachment; filename=query_export.xlsx" } ∧
    "attachment; filename=query_export.xlsx" =
      "attachment; filename=query_export" ++ ".xlsx" := by
  refine ⟨?_, rfl⟩
  simp [download_file, hc, hq, hf]

/-- C6 (witness): the sample request with FORMAT "excel" produces the xlsx
response for the sample dataframe. -/
theorem c6_excel_export_witness :
    (download_file sampleDb excelReq).1 = Except.ok
      { content := FileContent.excel [("SQL_Results", sampleDf)],
        mediaType :=
          "application/vnd.openxmlformats-officedocument.spreadsheetml.sheet",
        contentDisposition := "attachment; filename=query_export.xlsx" } :=
  (c6_excel_export sampleDb excelReq registeredConn sampleDf rfl rfl rfl).1

/-- C7 (confirmed): request handling is a pure function of the database and
the single request: in any sequence of served requests, the response at a
request's position is exactly that request's response, independent of what
is served before or after it, so equal requests always get equal responses
and no request influences another. -/
theorem c7_stateless_requests (db : Database)
    (pre1 post1 pre2 post2 : List RequestMsg) (r : RequestMsg) :
    (serve db (pre1 ++ r :: post1))[pre1.length]? = some (handle db r) ∧
    (serve db (pre1 ++ r :: post1))[pre1.length]? =
      (serve db (pre2 ++ r :: post2))[pre2.length]? := by
  have key : ∀ (pre post : List RequestMsg),
      (serve db (pre ++ r :: post))[pre.length]? = some (handle db r) := by
    intro pre post
    induction pre with
    | nil => simp [serve]
    | cons x xs ih => simpa [serve] using ih
  exact ⟨key pre1 post1, (key pre1 post1).trans (key pre2 post2).symm⟩

/-- C8 (counterexample): the claim that every export failure on /download
yields a 400 beginning "Export Error: " is false: an export failure (here
the two-character delimiter "||") happens after the first conn.close(), the
handler's second close on the closed connection raises, and the request
ends as a 500 Internal Server Error whose detail is no "Export Error"
message. -/
theorem c8_export_failure_counterexample :
    (download_file sampleDb badDelimReq).1 =
      Except.error { status := 500, detail := "Internal Server Error" } ∧
    ∀ d : String, (download_file sampleDb badDelimReq).1 ≠
      Except.error { status := 400, detail := "Export Error: " ++ d } := by
  refine ⟨rfl, ?_⟩
  intro d h
  have h0 : (download_file sampleDb badDelimReq).1 =
      Except.error { status := 500, detail := "Internal Server Error" } := rfl
  rw [h0] at h
  simp at h

/-- C8 (amended): after a successful connection, a failing query makes
/execute-sql answer 500 with the bare driver error string, while /download
answers 400 with "Export Error: " prefixed; an export failure on /download
(here: a delimiter that is not one character, failing after the connection
was already closed) is not wrapped that way: the handler's second close
raises and the request ends as an unhandled 500 Internal Server Error. -/
theorem c8_failure_statuses (db : Database) (req : DynamicRequest)
    (e : String) (hok : db.connect (get_conn_str req) = Except.ok ()) :
    (db.runQuery (pyLower req.QUERY) = Except.error e →
      (execute_sql db req).1 = Except.error { status := 500, detail := e }) ∧
    (db.runQuery req.QUERY = Except.error e →
      (download_file db req).1 =
        Except.error { status := 400, detail := "Export Error: " ++ e }) ∧
    (∀ conn df, get_db_connection db req = Except.ok conn →
      read_sql db conn req.QUERY = Except.ok df →
      req.FORMAT ≠ "excel" → req.DELIMITER.length ≠ 1 →
      (download_file db req).1 =
        Except.error { status := 500, detail := "Internal Server Error" }) := by
  refine ⟨?_, ?_, ?_⟩
  · intro hq
    simp [execute_sql, get_db_connection, hok, read_sql, hq]
  · intro hq
    simp [download_file, get_db_connection, hok, read_sql, hq]
  · intro conn df hc hq hf hlen
    simp [download_file, hc, hq, hf, to_csv, hlen]

/-- C8 (witness): concrete instances of the three failure shapes. -/
theorem c8_failure_statuses_witness :
    (execute_sql failQueryDb sampleReq).1 =
      Except.error { status := 500, detail := "bad sql" } ∧
    (download_file failQueryDb sampleReq).1 =
      Except.error { status := 400, detail := "Export Error: bad sql" } ∧
    (download_file sampleDb badDelimReq).1 =
      Except.error { status := 500, detail := "Internal Server Error" } :=
  ⟨(c8_failure_statuses failQueryDb sampleReq "bad sql" rfl).1 rfl,
   (c8_failure_statuses failQueryDb sampleReq "bad sql" rfl).2.1 rfl,
   (c8_failure_statuses sampleDb badDelimReq "unused" rfl).2.2 registeredConn
     sampleDf rfl rfl (by decide) (by decide)⟩

/-- C9 (confirmed): every successfully opened connection carries output
converters for geometry (ODBC -151) and xml (ODBC -152) that render any
value as its string form and render SQL NULL as the empty string "" rather
than as a missing value. -/
theorem c9_special_type_converters (db : Database) (req : DynamicRequest)
    (conn : Connection) (hc : get_db_connection db req = Except.ok conn) :
    lookupConverter conn.converters (-151) = some handle_special_types ∧
    lookupConverter conn.converters (-152) = some handle_special_types ∧
    readCell conn.converters (-151) RawValue.null = Cell.str "" ∧
    readCell conn.converters (-152) RawValue.null = Cell.str "" ∧
    (∀ v, readCell conn.converters (-151) v =
      Cell.str (handle_special_types (rawToOptionString v))) ∧
    (∀ v, readCell conn.converters (-152) v =
      Cell.str (handle_special_types (rawToOptionString v))) ∧
    handle_special_types none = "" := by
  unfold get_db_connection at hc
  cases h : db.connect (get_conn_str req) with
  | error e => rw [h] at hc; exact absurd hc (by simp)
  | ok u =>
      rw [h] at hc
      have hconn : ({ converters :=
          [(-151, handle_special_types), (-152, handle_special_types)] } :
            Connection) = conn := Except.ok.inj hc
      subst hconn
      exact ⟨rfl, rfl, rfl, rfl, fun v => rfl, fun v => rfl, rfl⟩

/-- C9 (witness): on the sample connection, the converters are registered
and NULL in an xml or geometry column becomes the empty string. -/
theorem c9_special_type_converters_witness :
    lookupConverter registeredConn.converters (-152) = some handle_special_types ∧
    readCell registeredConn.converters (-152) RawValue.null = Cell.str "" ∧
    readCell registeredConn.converters (-151) RawValue.null = Cell.str "" :=
  ⟨(c9_special_type_converters sampleDb sampleReq registeredConn rfl).2.1,
   (c9_special_type_converters sampleDb sampleReq registeredConn rfl).2.2.2.1,
   (c9_special_type_converters sampleDb sampleReq registeredConn rfl).2.2.1⟩

/-- C10 (confirmed): any non-"excel" FORMAT is exported as delimited text:
the media type is text/csv exactly when FORMAT is "csv" and text/plain
otherwise, the attachment filename extension is the FORMAT string verbatim,
and when FORMAT is "excel" the DELIMITER field has no effect on the
response. -/
theorem c10_text_format_handling (db : Database) (req : DynamicRequest)
    (conn : Connection) (df : DataFrame) (text : String)
    (hc : get_db_connection db req = Except.ok conn)
    (hq : read_sql db conn req.QUERY = Except.ok df) :
    (req.FORMAT ≠ "excel" → to_csv df req.DELIMITER = Except.ok text →
      (download_file db req).1 = Except.ok
        { content := FileContent.text text,
          mediaType := if req.FORMAT = "csv" then "text/csv" else "text/plain",
          contentDisposition :=
            "attachment; filename=query_export." ++ req.FORMAT }) ∧
    ((if req.FORMAT = "csv" then "text/csv" else "text/plain") = "text/csv" ↔
      req.FORMAT = "csv") ∧
    (∀ d1 d2 : String, req.FORMAT = "excel" →
      (download_file db { req with DELIMITER := d1 }).1 =
        (download_file db { req with DELIMITER := d2 }).1) := by
  refine ⟨?_, ?_, ?_⟩
  · intro hf ht
    simp [download_file, hc, hq, hf, ht]
  · by_cases hx : req.FORMAT = "csv"
    · simp [hx]
    · simp [hx]
  · intro d1 d2 hf
    have e1 : ∀ d : String, get_db_connection db { req with DELIMITER := d } =
        get_db_connection db req := fun d => rfl
    cases h1 : get_db_connection db req with
    | error e => simp [download_file, e1, h1]
    | ok conn2 =>
        cases h2 : read_sql db conn2 req.QUERY with
        | error e => simp [download_file, e1, h1, h2]
        | ok df2 =>
            simp only [download_file, e1, h1, h2]
            simp [hf]

/-- C10 (witness): the default csv request gets text/csv with extension
.csv, and two excel requests differing only in DELIMITER get the same
response. -/
theorem c10_text_format_handling_witness :
    (download_file sampleDb sampleReq).1 = Except.ok
      { content := FileContent.text "a,b\n1,x\n,\n",
        mediaType := "text/csv",
        contentDisposition := "attachment; filename=query_export.csv" } ∧
    (download_file sampleDb { excelReq with DELIMITER := "|" }).1 =
      (download_file sampleDb { excelReq with DELIMITER := ";" }).1 := by
  have h := c10_text_format_handling sampleDb sampleReq registeredConn sampleDf
    "a,b\n1,x\n,\n" rfl rfl
  have hx := c10_text_format_handling sampleDb excelReq registeredConn sampleDf
    "" rfl rfl
  exact ⟨by simpa using h.1 (by decide) rfl, hx.2.2 "|" ";" rfl⟩
